import Mathlib

/-!
Verification of the floor-plan-playground rendering core.

This file contains a shallow embedding, in Lean 4, of the parts of the
repository relevant to the claims under review:

- the static floor-plan configuration (src/www/js/config-like module holding
  FLOOR_PLAN_CONFIG),
- the consolidated-wall segmentation performed by buildFloorPlan in
  src/www/views/network.js,
- the zoom controller (setZoom / zoomIn / zoomOut / wheel / resetView) of
  src/www/js/views/isometric.js and src/www/views/network.js,
- the label projector (updateLabels) of src/www/js/views/isometric.js,
- the room-floor builder (createRoomFloor) of the shared room-builder module,
- the device placement of createDevices in src/www/views/network.js,
- the color utilities of src/www/js/three/color-utils.js,
- the renderer/scene lifecycle of waitForContainer + cleanupThreeState.

JavaScript numbers are modelled as rationals; all configuration constants
are decimal literals in the source and are embedded exactly.
-/

/-! ## Floor-plan configuration (FLOOR_PLAN_CONFIG) -/

/-- A room descriptor from FLOOR_PLAN_CONFIG.rooms: id, center coordinates
(x, z) in meters, width/depth, and label height offset. -/
structure Room where
  id : String
  x : ℚ
  z : ℚ
  width : ℚ
  depth : ℚ
  labelY : ℚ
deriving DecidableEq

/-- FLOOR_PLAN_CONFIG.apartmentWidth = 9.239. -/
def apartmentWidth : ℚ := 9239/1000

/-- FLOOR_PLAN_CONFIG.apartmentDepth = 6.665. -/
def apartmentDepth : ℚ := 6665/1000

/-- centerX = FLOOR_PLAN_CONFIG.apartmentWidth / 2, computed in every view. -/
def centerX : ℚ := apartmentWidth / 2

/-- centerZ = FLOOR_PLAN_CONFIG.apartmentDepth / 2, computed in every view. -/
def centerZ : ℚ := apartmentDepth / 2

/-- Room "study" from FLOOR_PLAN_CONFIG.rooms. -/
def studyRoom : Room := ⟨"study", 7285/1000, 18485/10000, 3908/1000, 3697/1000, 3⟩

/-- Room "living" from FLOOR_PLAN_CONFIG.rooms. -/
def livingRoom : Room := ⟨"living", 6864/1000, 5181/1000, 4750/1000, 2968/1000, 3⟩

/-- Room "bedroom" from FLOOR_PLAN_CONFIG.rooms. -/
def bedroomRoom : Room := ⟨"bedroom", 22445/10000, 5476/1000, 4489/1000, 2378/1000, 4⟩

/-- Room "kitchen" from FLOOR_PLAN_CONFIG.rooms. -/
def kitchenRoom : Room := ⟨"kitchen", 16655/10000, 28957/10000, 3331/1000, 27827/10000, 3⟩

/-- Room "bathroom" from FLOOR_PLAN_CONFIG.rooms. -/
def bathroomRoom : Room := ⟨"bathroom", 16985/10000, 7522/10000, 3397/1000, 15043/10000, 2⟩

/-- FLOOR_PLAN_CONFIG.rooms in configuration order. -/
def configRooms : List Room := [studyRoom, livingRoom, bedroomRoom, kitchenRoom, bathroomRoom]

/-- FLOOR_PLAN_CONFIG.balconyNotch.width = 1.0. -/
def notchWidth : ℚ := 1

/-- FLOOR_PLAN_CONFIG.balconyNotch.depth = 1.5. -/
def notchDepth : ℚ := 15/10

/-- Wall height used by buildFloorPlan in network.js (const wallHeight = 0.8). -/
def wallHeightNetwork : ℚ := 8/10

/-! ## Interval arithmetic for wall spans

A wall segment or opening occupies a 1-dimensional interval along the
wall's span axis.  Every box mesh in the source is given by a center
coordinate and a width; the corresponding interval is
[center - width/2, center + width/2]. -/

/-- A closed interval along a wall's span axis. -/
structure Iv where
  lo : ℚ
  hi : ℚ
deriving DecidableEq

/-- Interval of a box mesh given its center coordinate and its size along the
span axis, exactly as THREE.BoxGeometry extends around the mesh position. -/
def ivOf (center width : ℚ) : Iv := ⟨center - width/2, center + width/2⟩

/-- The given pieces, in order, exactly tile the range from pos to stop:
each piece starts where the previous ended, is non-degenerate in the weak
sense lo ≤ hi, and the last piece ends at stop. -/
def chainFrom (pos stop : ℚ) : List Iv → Bool
  | [] => pos == stop
  | p :: rest => (p.lo == pos) && (decide (p.lo ≤ p.hi)) && chainFrom p.hi stop rest

/-- The pieces, in order, tile the span exactly: no gap and no overlap. -/
def tilesSpan (span : Iv) (pieces : List Iv) : Bool :=
  chainFrom span.lo span.hi pieces

/-- Interleave N+1 segments with N openings in geometric order:
segment, opening, segment, opening, ..., segment. -/
def interleaveIv : List Iv → List Iv → List Iv
  | [], _ => []
  | s :: ss, [] => s :: ss
  | s :: ss, o :: os => s :: o :: interleaveIv ss os

/-- Consecutive openings do not overlap (each ends before the next starts). -/
def disjointChain : List Iv → Bool
  | [] => true
  | [_] => true
  | a :: b :: rest => decide (a.hi ≤ b.lo) && disjointChain (b :: rest)

/-- The openings all have positive width, lie strictly inside the span, and
are pairwise non-overlapping (listed in geometric order). -/
def openingsValid (span : Iv) (os : List Iv) : Bool :=
  os.all (fun o =>
    decide (o.lo < o.hi) && decide (span.lo < o.lo) && decide (o.hi < span.hi)) &&
  disjointChain os

/-! ## Consolidated walls built by buildFloorPlan (src/www/views/network.js)

The floor-plan assembler builds its consolidated walls in straight-line
code; the source's own WALL INDEX REFERENCE comment enumerates them:
the Study-Living divider, the coat wall, the north wall, the west wall,
the east wall upper, the east wall lower and the south wall.  Each wall
below records, translated term-for-term from the source arithmetic:
the full span the wall covers (in the scene-centered coordinates the
source uses), the opening intervals subtracted from it, and the emitted
sub-segment intervals.  Sill/header walls additionally record the sill
and header strips. -/

/-- A consolidated wall: its full span, openings and emitted segments, plus
the optional (sill, header) pair for sill/header-style walls. -/
structure CWall where
  span : Iv
  openings : List Iv
  segs : List Iv
  sillHeader : Option (Iv × Iv)
deriving DecidableEq

/-- studyFrontZ = study.z + study.depth/2 - 0.5 (network.js). -/
def studyFrontZ : ℚ := studyRoom.z + studyRoom.depth/2 - 5/10

/-- Interior door width in network.js (const doorWidth = 0.42). -/
def doorWidth42 : ℚ := 42/100

/-- door4X = 3.8 (Bedroom-Hallway door center on the Study-Living divider). -/
def door4X : ℚ := 38/10

/-- door2X = 4.8 (Living-Hallway door center on the Study-Living divider). -/
def door2X : ℚ := 48/10

/-- door4Left = door4X - doorWidth/2. -/
def door4Left : ℚ := door4X - doorWidth42/2

/-- door4Right = door4X + doorWidth/2. -/
def door4Right : ℚ := door4X + doorWidth42/2

/-- door2Left = door2X - doorWidth/2. -/
def door2Left : ℚ := door2X - doorWidth42/2

/-- door2Right = door2X + doorWidth/2. -/
def door2Right : ℚ := door2X + doorWidth42/2

/-- wall3Left: BoxGeometry width door4Left at x = door4Left/2 - centerX. -/
def wall3Left : Iv := ivOf (door4Left/2 - centerX) door4Left

/-- wall3MidWidth = door2Left - door4Right. -/
def wall3MidWidth : ℚ := door2Left - door4Right

/-- wall3Mid: BoxGeometry width wall3MidWidth at
x = door4Right + wall3MidWidth/2 - centerX. -/
def wall3Mid : Iv := ivOf (door4Right + wall3MidWidth/2 - centerX) wall3MidWidth

/-- wall3RightWidth = apartmentWidth - door2Right. -/
def wall3RightWidth : ℚ := apartmentWidth - door2Right

/-- wall3Right: BoxGeometry width wall3RightWidth at
x = door2Right + wall3RightWidth/2 - centerX. -/
def wall3Right : Iv := ivOf (door2Right + wall3RightWidth/2 - centerX) wall3RightWidth

/-- Wall 3, the Study-Living horizontal divider: full apartment width span
with two door openings and three emitted segments. -/
def wall3CW : CWall :=
  { span := ⟨0 - centerX, apartmentWidth - centerX⟩
    openings := [ivOf (door4X - centerX) doorWidth42, ivOf (door2X - centerX) doorWidth42]
    segs := [wall3Left, wall3Mid, wall3Right]
    sillHeader := none }

/-- wall15Z = study.z + study.depth/2 = 3.697 (network.js coat wall basis). -/
def wall15Z : ℚ := studyRoom.z + studyRoom.depth/2

/-- coatWallLength = (wall15Z - wall16Z) * 0.30 with wall16Z = 0. -/
def coatWallLength : ℚ := (wall15Z - 0) * (30/100)

/-- coatWallCenterZ = wall16Z + coatWallLength / 2 with wall16Z = 0. -/
def coatWallCenterZ : ℚ := 0 + coatWallLength / 2

/-- The coat wall segment: BoxGeometry depth coatWallLength at
z = coatWallCenterZ - centerZ. -/
def coatWallIv : Iv := ivOf (coatWallCenterZ - centerZ) coatWallLength

/-- Wall 4, the coat hanging wall in the hallway: no openings, a single
segment covering its whole span. -/
def coatWallCW : CWall :=
  { span := coatWallIv
    openings := []
    segs := [coatWallIv]
    sillHeader := none }

/-- mainDoorX = 4.0 (main entry door center on the north wall). -/
def mainDoorX : ℚ := 4

/-- mainDoorWidth = 0.42. -/
def mainDoorWidth : ℚ := 42/100

/-- mainDoorLeft = mainDoorX - mainDoorWidth/2. -/
def mainDoorLeft : ℚ := mainDoorX - mainDoorWidth/2

/-- mainDoorRight = mainDoorX + mainDoorWidth/2. -/
def mainDoorRight : ℚ := mainDoorX + mainDoorWidth/2

/-- northWall1: BoxGeometry width mainDoorLeft at x = mainDoorLeft/2 - centerX. -/
def northWall1 : Iv := ivOf (mainDoorLeft/2 - centerX) mainDoorLeft

/-- northSeg2Width = apartmentWidth - mainDoorRight. -/
def northSeg2Width : ℚ := apartmentWidth - mainDoorRight

/-- northWall2: BoxGeometry width northSeg2Width at
x = (mainDoorRight + apartmentWidth)/2 - centerX. -/
def northWall2 : Iv := ivOf ((mainDoorRight + apartmentWidth)/2 - centerX) northSeg2Width

/-- Wall 5, the consolidated north wall: full apartment width span with the
main entry door opening and two emitted segments. -/
def northWallCW : CWall :=
  { span := ⟨0 - centerX, apartmentWidth - centerX⟩
    openings := [ivOf (mainDoorX - centerX) mainDoorWidth]
    segs := [northWall1, northWall2]
    sillHeader := none }

/-- westNormalWidth = 0.7 (base window width on the west wall). -/
def westNormalWidth : ℚ := 7/10

/-- w5Width = westNormalWidth * 0.9 (Bathroom window). -/
def w5Width : ℚ := westNormalWidth * (9/10)

/-- w4Width = westNormalWidth * 1.125 (Kitchen window). -/
def w4Width : ℚ := westNormalWidth * (1125/1000)

/-- w3Width = westNormalWidth * 2.0 (Bedroom window). -/
def w3Width : ℚ := westNormalWidth * 2

/-- w5CenterZ = 0.6. -/
def w5CenterZ : ℚ := 6/10

/-- w4CenterZ = 2.3. -/
def w4CenterZ : ℚ := 23/10

/-- w3CenterZ = 4.7. -/
def w3CenterZ : ℚ := 47/10

/-- w5Left = w5CenterZ - w5Width / 2. -/
def w5Left : ℚ := w5CenterZ - w5Width/2

/-- w5Right = w5CenterZ + w5Width / 2. -/
def w5Right : ℚ := w5CenterZ + w5Width/2

/-- w4Left = w4CenterZ - w4Width / 2. -/
def w4Left : ℚ := w4CenterZ - w4Width/2

/-- w4Right = w4CenterZ + w4Width / 2. -/
def w4Right : ℚ := w4CenterZ + w4Width/2

/-- w3Left = w3CenterZ - w3Width / 2. -/
def w3Left : ℚ := w3CenterZ - w3Width/2

/-- w3Right = w3CenterZ + w3Width / 2. -/
def w3Right : ℚ := w3CenterZ + w3Width/2

/-- westWallDepth = FLOOR_PLAN_CONFIG.apartmentDepth. -/
def westWallDepth : ℚ := apartmentDepth

/-- westSill: BoxGeometry depth westWallDepth at z = 0 (full-length bottom
strip of the west wall). -/
def westSillIv : Iv := ivOf 0 westWallDepth

/-- westHeader: BoxGeometry depth westWallDepth at z = 0 (full-length top
strip of the west wall). -/
def westHeaderIv : Iv := ivOf 0 westWallDepth

/-- westSection1: depth w5Left at z = westSec1Depth/2 - centerZ. -/
def westSection1 : Iv := ivOf (w5Left/2 - centerZ) w5Left

/-- westSec2Depth = w4Left - w5Right. -/
def westSec2Depth : ℚ := w4Left - w5Right

/-- westSection2: depth westSec2Depth at z = w5Right + westSec2Depth/2 - centerZ. -/
def westSection2 : Iv := ivOf (w5Right + westSec2Depth/2 - centerZ) westSec2Depth

/-- westSec3Depth = w3Left - w4Right. -/
def westSec3Depth : ℚ := w3Left - w4Right

/-- westSection3: depth westSec3Depth at z = w4Right + westSec3Depth/2 - centerZ. -/
def westSection3 : Iv := ivOf (w4Right + westSec3Depth/2 - centerZ) westSec3Depth

/-- westSec4Depth = westWallDepth - w3Right. -/
def westSec4Depth : ℚ := westWallDepth - w3Right

/-- westSection4: depth westSec4Depth at z = w3Right + westSec4Depth/2 - centerZ. -/
def westSection4 : Iv := ivOf (w3Right + westSec4Depth/2 - centerZ) westSec4Depth

/-- Wall 7, the consolidated west wall with the W5, W4 and W3 window cuts:
a sill/header-style wall with three openings and four middle sections. -/
def westWallCW : CWall :=
  { span := ⟨0 - centerZ, apartmentDepth - centerZ⟩
    openings := [ivOf (w5CenterZ - centerZ) w5Width,
                 ivOf (w4CenterZ - centerZ) w4Width,
                 ivOf (w3CenterZ - centerZ) w3Width]
    segs := [westSection1, westSection2, westSection3, westSection4]
    sillHeader := some (westSillIv, westHeaderIv) }

/-- wall10DoorWidth = 0.42. -/
def wall10DoorWidth : ℚ := 42/100

/-- bathDoorZ = 0.7 (bathroom door center on the upper east wall). -/
def bathDoorZ : ℚ := 7/10

/-- bathDoorTop = bathDoorZ - wall10DoorWidth/2. -/
def bathDoorTop : ℚ := bathDoorZ - wall10DoorWidth/2

/-- bathDoorBottom = bathDoorZ + wall10DoorWidth/2. -/
def bathDoorBottom : ℚ := bathDoorZ + wall10DoorWidth/2

/-- kitchenDoorZ = 2.5 (kitchen door center on the upper east wall). -/
def kitchenDoorZ : ℚ := 25/10

/-- kitchenDoorTop = kitchenDoorZ - wall10DoorWidth/2. -/
def kitchenDoorTop : ℚ := kitchenDoorZ - wall10DoorWidth/2

/-- kitchenDoorBottom = kitchenDoorZ + wall10DoorWidth/2. -/
def kitchenDoorBottom : ℚ := kitchenDoorZ + wall10DoorWidth/2

/-- eastWallUpper1: depth bathDoorTop at z = wall10Seg1Depth/2 - centerZ. -/
def eastWallUpper1 : Iv := ivOf (bathDoorTop/2 - centerZ) bathDoorTop

/-- wall10Seg2Depth = kitchenDoorTop - bathDoorBottom. -/
def wall10Seg2Depth : ℚ := kitchenDoorTop - bathDoorBottom

/-- eastWallUpper2: depth wall10Seg2Depth at
z = (bathDoorBottom + kitchenDoorTop)/2 - centerZ. -/
def eastWallUpper2 : Iv := ivOf ((bathDoorBottom + kitchenDoorTop)/2 - centerZ) wall10Seg2Depth

/-- wall10Seg3Depth = studyFrontZ - kitchenDoorBottom. -/
def wall10Seg3Depth : ℚ := studyFrontZ - kitchenDoorBottom

/-- eastWallUpper3: depth wall10Seg3Depth at
z = (kitchenDoorBottom + studyFrontZ)/2 - centerZ. -/
def eastWallUpper3 : Iv := ivOf ((kitchenDoorBottom + studyFrontZ)/2 - centerZ) wall10Seg3Depth

/-- The consolidated east wall upper (Bathroom+Kitchen right): span from 0 to
studyFrontZ with two door openings and three emitted segments. -/
def eastUpperCW : CWall :=
  { span := ⟨0 - centerZ, studyFrontZ - centerZ⟩
    openings := [ivOf (bathDoorZ - centerZ) wall10DoorWidth,
                 ivOf (kitchenDoorZ - centerZ) wall10DoorWidth]
    segs := [eastWallUpper1, eastWallUpper2, eastWallUpper3]
    sillHeader := none }

/-- eastWallEndZ = apartmentDepth - notch.depth. -/
def eastWallEndZ : ℚ := apartmentDepth - notchDepth

/-- normalWidth = 0.7 (base window width on the lower east wall). -/
def eastNormalWidth : ℚ := 7/10

/-- w1Width = normalWidth * 2.3 (Study window). -/
def w1Width : ℚ := eastNormalWidth * (23/10)

/-- w2Width = normalWidth * 1.25 (Living window). -/
def w2Width : ℚ := eastNormalWidth * (125/100)

/-- w1CenterZ = 1.5. -/
def w1CenterZ : ℚ := 15/10

/-- w2CenterZ = 4.2. -/
def w2CenterZ : ℚ := 42/10

/-- w1Left = w1CenterZ - w1Width / 2. -/
def w1Left : ℚ := w1CenterZ - w1Width/2

/-- w1Right = w1CenterZ + w1Width / 2. -/
def w1Right : ℚ := w1CenterZ + w1Width/2

/-- w2Left = w2CenterZ - w2Width / 2. -/
def w2Left : ℚ := w2CenterZ - w2Width/2

/-- w2Right = w2CenterZ + w2Width / 2. -/
def w2Right : ℚ := w2CenterZ + w2Width/2

/-- East lower sill: BoxGeometry depth eastWallEndZ at z = eastWallEndZ/2 - centerZ. -/
def eastSillIv : Iv := ivOf (eastWallEndZ/2 - centerZ) eastWallEndZ

/-- East lower header: BoxGeometry depth eastWallEndZ at z = eastWallEndZ/2 - centerZ. -/
def eastHeaderIv : Iv := ivOf (eastWallEndZ/2 - centerZ) eastWallEndZ

/-- eastSection1: depth w1Left at z = sec1Depth/2 - centerZ. -/
def eastSection1 : Iv := ivOf (w1Left/2 - centerZ) w1Left

/-- sec2Depth = w2Left - w1Right. -/
def eastSec2Depth : ℚ := w2Left - w1Right

/-- eastSection2: depth sec2Depth at z = w1Right + sec2Depth/2 - centerZ. -/
def eastSection2 : Iv := ivOf (w1Right + eastSec2Depth/2 - centerZ) eastSec2Depth

/-- sec3Depth = eastWallEndZ - w2Right. -/
def eastSec3Depth : ℚ := eastWallEndZ - w2Right

/-- eastSection3: depth sec3Depth at z = w2Right + sec3Depth/2 - centerZ. -/
def eastSection3 : Iv := ivOf (w2Right + eastSec3Depth/2 - centerZ) eastSec3Depth

/-- The consolidated east wall lower (Study+Living right) with the W1 and W2
window cuts: a sill/header-style wall with two openings and three middle
sections. -/
def eastLowerCW : CWall :=
  { span := ⟨0 - centerZ, eastWallEndZ - centerZ⟩
    openings := [ivOf (w1CenterZ - centerZ) w1Width,
                 ivOf (w2CenterZ - centerZ) w2Width]
    segs := [eastSection1, eastSection2, eastSection3]
    sillHeader := some (eastSillIv, eastHeaderIv) }

/-- southWallWidth = apartmentWidth - notch.width. -/
def southWallWidth : ℚ := apartmentWidth - notchWidth

/-- The south wall segment: width southWallWidth at
x = southWallWidth/2 - centerX (gap on the east side for the balcony notch). -/
def southWallIv : Iv := ivOf (southWallWidth/2 - centerX) southWallWidth

/-- The consolidated south wall: no openings, a single segment covering its
span (which stops at the balcony notch). -/
def southWallCW : CWall :=
  { span := ⟨0 - centerX, southWallWidth - centerX⟩
    openings := []
    segs := [southWallIv]
    sillHeader := none }

/-- The consolidated walls built by buildFloorPlan, in the order of the
source's WALL INDEX REFERENCE comment. -/
def consolidatedWalls : List CWall :=
  [wall3CW, coatWallCW, northWallCW, westWallCW, eastUpperCW, eastLowerCW, southWallCW]

/-- C1: for every consolidated wall built by the floor-plan assembler, the N
openings are non-overlapping and strictly within the wall span, the assembler
emits exactly N+1 full-height sub-segments (middle-height sections for
sill/header-style walls, whose sill and header each cover the full span), and
the emitted sub-segment spans interleaved with the opening spans tile the
wall's full span exactly, with no gap and no overlap. -/
theorem claim_C1_wall_segmentation :
    ∀ w ∈ consolidatedWalls,
      openingsValid w.span w.openings = true ∧
      w.segs.length = w.openings.length + 1 ∧
      tilesSpan w.span (interleaveIv w.segs w.openings) = true ∧
      w.sillHeader.all (fun p => p.1 == w.span && p.2 == w.span) = true := by
  intro w hw
  simp only [consolidatedWalls, List.mem_cons, List.not_mem_nil, or_false] at hw
  rcases hw with rfl | rfl | rfl | rfl | rfl | rfl | rfl <;>
    refine ⟨?_, ?_, ?_, ?_⟩ <;>
    norm_num [wall3CW, coatWallCW, northWallCW, westWallCW, eastUpperCW, eastLowerCW,
      southWallCW, openingsValid, disjointChain, tilesSpan, chainFrom, interleaveIv, ivOf,
      Option.all, apartmentWidth, apartmentDepth, centerX, centerZ, studyRoom, studyFrontZ,
      doorWidth42, door4X, door2X, door4Left, door4Right, door2Left, door2Right,
      wall3Left, wall3Mid, wall3Right, wall3MidWidth, wall3RightWidth,
      wall15Z, coatWallLength, coatWallCenterZ, coatWallIv,
      mainDoorX, mainDoorWidth, mainDoorLeft, mainDoorRight, northWall1, northWall2,
      northSeg2Width, westNormalWidth, w5Width, w4Width, w3Width, w5CenterZ, w4CenterZ,
      w3CenterZ, w5Left, w5Right, w4Left, w4Right, w3Left, w3Right, westWallDepth,
      westSillIv, westHeaderIv, westSection1, westSection2, westSection3, westSection4,
      westSec2Depth, westSec3Depth, westSec4Depth, wall10DoorWidth, bathDoorZ, bathDoorTop,
      bathDoorBottom, kitchenDoorZ, kitchenDoorTop, kitchenDoorBottom, eastWallUpper1,
      eastWallUpper2, eastWallUpper3, wall10Seg2Depth, wall10Seg3Depth, eastWallEndZ,
      eastNormalWidth, w1Width, w2Width, w1CenterZ, w2CenterZ, w1Left, w1Right, w2Left,
      w2Right, eastSillIv, eastHeaderIv, eastSection1, eastSection2, eastSection3,
      eastSec2Depth, eastSec3Depth, notchWidth, notchDepth, southWallWidth, southWallIv]

/-- Witness for C1: the segmentation property instantiated at the west wall
(the sill/header-style wall with three window openings). -/
theorem claim_C1_wall_segmentation_witness :
    openingsValid westWallCW.span westWallCW.openings = true ∧
    westWallCW.segs.length = westWallCW.openings.length + 1 ∧
    tilesSpan westWallCW.span (interleaveIv westWallCW.segs westWallCW.openings) = true ∧
    westWallCW.sillHeader.all (fun p => p.1 == westWallCW.span && p.2 == westWallCW.span) = true :=
  claim_C1_wall_segmentation westWallCW (by simp [consolidatedWalls])

/-! ## Zoom controller (isometric.js / network.js)

setZoom clamps its argument to [0.5, 3.0] before storing it; the wheel
handler multiplies the current zoom level by 0.9 (deltaY > 0) or 1.1,
zoomIn multiplies by 1.2, zoomOut divides by 1.2, and resetView writes 1.0
directly.  The isometric view starts at zoomLevel 1.0 and the network view
at 2.0. -/

/-- setZoom: this.zoomLevel = Math.max(0.5, Math.min(3.0, level)). -/
def setZoom (level : ℚ) : ℚ := max (5/10) (min 3 level)

/-- A zoom operation the user can trigger on a view. -/
inductive ZoomOp where
  | wheel (deltaYPos : Bool)
  | zoomIn
  | zoomOut
  | setLevel (level : ℚ)
  | resetView
deriving DecidableEq

/-- One zoom operation applied to the current zoom level, following the
source: wheel calls setZoom(zoomLevel * (deltaY > 0 ? 0.9 : 1.1)), zoomIn
calls setZoom(zoomLevel * 1.2), zoomOut calls setZoom(zoomLevel / 1.2),
setLevel calls setZoom with an arbitrary argument, and resetView assigns
zoomLevel = 1.0. -/
def applyZoomOp (z : ℚ) : ZoomOp → ℚ
  | .wheel deltaYPos => setZoom (z * (if deltaYPos then 9/10 else 11/10))
  | .zoomIn => setZoom (z * (12/10))
  | .zoomOut => setZoom (z / (12/10))
  | .setLevel level => setZoom level
  | .resetView => 1

/-- The zoom level after running a sequence of zoom operations from a
starting zoom level. -/
def runZoom (z0 : ℚ) (ops : List ZoomOp) : ℚ := ops.foldl applyZoomOp z0

/-- The clamp in setZoom always lands in [0.5, 3.0]. -/
theorem setZoom_mem (level : ℚ) : 5/10 ≤ setZoom level ∧ setZoom level ≤ 3 :=
  ⟨le_max_left _ _, max_le (by norm_num) (min_le_left _ _)⟩

/-- Every zoom operation leaves the zoom level in [0.5, 3.0], whatever the
previous level was. -/
theorem applyZoomOp_mem (z : ℚ) (op : ZoomOp) :
    5/10 ≤ applyZoomOp z op ∧ applyZoomOp z op ≤ 3 := by
  cases op <;> first
    | exact setZoom_mem _
    | exact ⟨by norm_num [applyZoomOp], by norm_num [applyZoomOp]⟩

/-- Running any sequence of zoom operations from a level in [0.5, 3.0] ends
in [0.5, 3.0]. -/
theorem runZoom_mem (ops : List ZoomOp) :
    ∀ z0 : ℚ, 5/10 ≤ z0 → z0 ≤ 3 → 5/10 ≤ runZoom z0 ops ∧ runZoom z0 ops ≤ 3 := by
  induction ops with
  | nil => exact fun z0 h1 h2 => ⟨h1, h2⟩
  | cons op rest ih =>
    intro z0 _ _
    have hstep := applyZoomOp_mem z0 op
    exact ih (applyZoomOp z0 op) hstep.1 hstep.2

/-- C2: for every sequence of zoom operations (wheel events, zoomIn, zoomOut,
setZoom with an arbitrary argument, resetView) applied from the view's
initial state (zoomLevel 1.0 for the isometric view, 2.0 for the network
view), the zoom level lies in the closed interval [0.5, 3.0] after each
operation completes (every prefix of a sequence is itself a sequence). -/
theorem claim_C2_zoom_clamped (ops : List ZoomOp) :
    (5/10 ≤ runZoom 1 ops ∧ runZoom 1 ops ≤ 3) ∧
    (5/10 ≤ runZoom 2 ops ∧ runZoom 2 ops ≤ 3) :=
  ⟨runZoom_mem ops 1 (by norm_num) (by norm_num),
   runZoom_mem ops 2 (by norm_num) (by norm_num)⟩

/-- The wheel factor chosen from the sign of deltaY, as in the wheel handler:
const delta = e.deltaY > 0 ? 0.9 : 1.1. -/
def wheelFactor (deltaYPos : Bool) : ℚ := if deltaYPos then 9/10 else 11/10

/-- C6: a wheel event multiplies the current zoom level by 0.9 when
deltaY > 0 and by 1.1 otherwise, then clamps to [0.5, 3.0]; a single
wheel-down event from zoom 1.0 yields 0.9, and ten consecutive wheel-down
events from 1.0 leave the zoom at exactly 0.5. -/
theorem claim_C6_wheel_zoom :
    (∀ (z : ℚ) (deltaYPos : Bool),
      applyZoomOp z (.wheel deltaYPos) = setZoom (z * wheelFactor deltaYPos)) ∧
    runZoom 1 [.wheel true] = 9/10 ∧
    runZoom 1 (List.replicate 10 (.wheel true)) = 5/10 := by
  refine ⟨fun z d => rfl, ?_, ?_⟩ <;>
    norm_num [runZoom, List.replicate, applyZoomOp, setZoom, min_def, max_def]

/-! ## Label projector visibility rule (updateLabels)

Each frame, updateLabels projects a room label anchor through the camera,
converts the normalized device coordinates to pixel coordinates, and marks
the label visible exactly when the pixel position is strictly inside the
container minus a 20px margin. -/

/-- The fixed margin in updateLabels (const margin = 20). -/
def labelMargin : ℚ := 20

/-- The visibility computation of updateLabels:
containerWidth > 0 && containerHeight > 0 && x > margin &&
x < containerWidth - margin && y > margin && y < containerHeight - margin. -/
def labelIsVisible (containerWidth containerHeight x y : ℚ) : Bool :=
  decide (0 < containerWidth) && decide (0 < containerHeight) &&
  decide (labelMargin < x) && decide (x < containerWidth - labelMargin) &&
  decide (labelMargin < y) && decide (y < containerHeight - labelMargin)

/-- C3: a tracked room label is marked visible if and only if its projected
pixel position satisfies x > 20, x < containerWidth - 20, y > 20 and
y < containerHeight - 20 with both container dimensions positive; otherwise
it is hidden. -/
theorem claim_C3_label_visibility (containerWidth containerHeight x y : ℚ) :
    labelIsVisible containerWidth containerHeight x y = true ↔
      (x > 20 ∧ x < containerWidth - 20 ∧ y > 20 ∧ y < containerHeight - 20 ∧
       0 < containerWidth ∧ 0 < containerHeight) := by
  simp only [labelIsVisible, labelMargin, Bool.and_eq_true, decide_eq_true_eq]
  tauto

/-! ## Label projection (updateLabels pixel mapping)

The anchor's world position is transformed by the camera's world-inverse
matrix and then by its projection matrix (THREE.Vector3.project), each
application performing the perspective divide of Vector3.applyMatrix4; the
resulting normalized device coordinates are mapped to pixels by
x = (ndc.x * 0.5 + 0.5) * containerWidth and
y = (-ndc.y * 0.5 + 0.5) * containerHeight. -/

/-- A 3D point or vector. -/
structure Vec3 where
  x : ℚ
  y : ℚ
  z : ℚ
deriving DecidableEq

/-- A 4x4 transformation matrix (row-major entries). -/
structure Mat4 where
  m11 : ℚ
  m12 : ℚ
  m13 : ℚ
  m14 : ℚ
  m21 : ℚ
  m22 : ℚ
  m23 : ℚ
  m24 : ℚ
  m31 : ℚ
  m32 : ℚ
  m33 : ℚ
  m34 : ℚ
  m41 : ℚ
  m42 : ℚ
  m43 : ℚ
  m44 : ℚ
deriving DecidableEq

/-- THREE.Vector3.applyMatrix4: multiply the homogeneous point (x, y, z, 1)
by the matrix and divide by the resulting w component. -/
def applyMatrix4 (m : Mat4) (v : Vec3) : Vec3 :=
  let w := m.m41 * v.x + m.m42 * v.y + m.m43 * v.z + m.m44
  ⟨(m.m11 * v.x + m.m12 * v.y + m.m13 * v.z + m.m14) / w,
   (m.m21 * v.x + m.m22 * v.y + m.m23 * v.z + m.m24) / w,
   (m.m31 * v.x + m.m32 * v.y + m.m33 * v.z + m.m34) / w⟩

/-- Camera state as consumed by Vector3.project: the world-inverse matrix
and the projection matrix. -/
structure CameraState where
  matrixWorldInverse : Mat4
  projectionMatrix : Mat4
deriving DecidableEq

/-- THREE.Vector3.project(camera): apply the camera's matrixWorldInverse,
then its projectionMatrix. -/
def projectPoint (cam : CameraState) (v : Vec3) : Vec3 :=
  applyMatrix4 cam.projectionMatrix (applyMatrix4 cam.matrixWorldInverse v)

/-- The pixel position updateLabels computes for an anchor: project the
anchor through the camera, then map the normalized device coordinates to
pixels with the live container size. -/
def labelPixel (cam : CameraState) (anchor : Vec3) (containerWidth containerHeight : ℚ) :
    ℚ × ℚ :=
  let ndc := projectPoint cam anchor
  ((ndc.x * (5/10) + 5/10) * containerWidth, (-ndc.y * (5/10) + 5/10) * containerHeight)

/-- C7: the label projection is a deterministic pure function of the camera
state, anchor position and container size: evaluating it twice with no
intervening state change yields identical pixel coordinates, and the result
is exactly ((ndc.x * 0.5 + 0.5) * containerWidth,
(-ndc.y * 0.5 + 0.5) * containerHeight) for the projected ndc. -/
theorem claim_C7_projection_deterministic
    (cam : CameraState) (anchor : Vec3) (containerWidth containerHeight : ℚ) :
    labelPixel cam anchor containerWidth containerHeight =
      labelPixel cam anchor containerWidth containerHeight ∧
    labelPixel cam anchor containerWidth containerHeight =
      (((projectPoint cam anchor).x * (5/10) + 5/10) * containerWidth,
       (-(projectPoint cam anchor).y * (5/10) + 5/10) * containerHeight) :=
  ⟨rfl, rfl⟩

/-! ## Room floor placement (room-builder createRoomFloor) -/

/-- The position createRoomFloor assigns to a room's floor mesh:
floor.position.set(config.x - centerX, 0.025, config.z - centerZ). -/
def createRoomFloorPos (config : Room) (cX cZ : ℚ) : Vec3 :=
  ⟨config.x - cX, 25/1000, config.z - cZ⟩

/-- C8: with apartment width 9.239 and depth 6.665 and the study configured
at center (7.285, 1.8485), the study's floor mesh is positioned at
scene-local coordinates (x, z) = (2.6655, -1.484), i.e. at
(config.x - apartmentWidth/2, config.z - apartmentDepth/2). -/
theorem claim_C8_study_floor_position :
    (createRoomFloorPos studyRoom centerX centerZ).x = 26655/10000 ∧
    (createRoomFloorPos studyRoom centerX centerZ).z = -(1484/1000) ∧
    (createRoomFloorPos studyRoom centerX centerZ).x = studyRoom.x - apartmentWidth/2 ∧
    (createRoomFloorPos studyRoom centerX centerZ).z = studyRoom.z - apartmentDepth/2 := by
  refine ⟨?_, ?_, rfl, rfl⟩ <;>
    norm_num [createRoomFloorPos, studyRoom, centerX, centerZ, apartmentWidth, apartmentDepth]

/-! ## Device placement (createDevices, network.js) -/

/-- Room lookup used throughout the source:
FLOOR_PLAN_CONFIG.rooms.find(r => r.id === roomId). -/
def findRoom (rooms : List Room) (roomId : String) : Option Room :=
  rooms.find? (fun r => r.id == roomId)

/-- The position createDevices gives a device marker mesh: when the
referenced room is found, mesh.position.set(
roomCenterX + (device.x - 0.5) * room.width * 0.8, 0.5,
roomCenterZ + (device.z - 0.5) * room.depth * 0.8); otherwise the mesh keeps
the THREE.Mesh default position (0, 0, 0). -/
def deviceMarkerPos (rooms : List Room) (roomId : String) (dx dz : ℚ) : Vec3 :=
  match findRoom rooms roomId with
  | some room =>
      ⟨(room.x - centerX) + (dx - 5/10) * room.width * (8/10), 5/10,
       (room.z - centerZ) + (dz - 5/10) * room.depth * (8/10)⟩
  | none => ⟨0, 0, 0⟩

/-- C9: a device whose room id resolves to a configured room and whose
relative position within the room is (0.5, 0.5) is placed exactly at the
room's center in scene-local coordinates, with zero offset in x and z. -/
theorem claim_C9_device_center (rooms : List Room) (roomId : String) (room : Room)
    (h : findRoom rooms roomId = some room) :
    deviceMarkerPos rooms roomId (5/10) (5/10) =
      ⟨room.x - centerX, 5/10, room.z - centerZ⟩ := by
  simp only [deviceMarkerPos, h]
  refine congrArg₂ (Vec3.mk · (5/10) ·) ?_ ?_ <;> ring

/-- Witness for C9: a device in the study at relative position (0.5, 0.5)
lands on the study's center. -/
theorem claim_C9_device_center_witness :
    deviceMarkerPos configRooms "study" (5/10) (5/10) =
      ⟨studyRoom.x - centerX, 5/10, studyRoom.z - centerZ⟩ :=
  claim_C9_device_center configRooms "study" studyRoom (by
    simp [findRoom, configRooms, studyRoom, List.find?])

/-! ## Color utilities (src/www/js/three/color-utils.js)

interpolateColor walks a color scale (an array of {value, color} entries),
returning the first color for values at or below the first entry, the last
color for values at or beyond the last entry, and otherwise a channelwise
linear interpolation between the first adjacent pair of entries bracketing
the value.  THREE.Color.lerpColors interpolates each rgb channel linearly
and getHex rounds each channel back to a byte; lerpHex below performs that
channelwise interpolation on the byte components. -/

/-- An entry of a color scale: {value, color}. -/
structure ColorStop where
  value : ℚ
  color : ℕ
deriving DecidableEq

/-- TEMP_COLORS from the color-scales configuration. -/
def TEMP_COLORS : List ColorStop :=
  [⟨18, 0x90CAF9⟩, ⟨22, 0xA5D6A7⟩, ⟨24, 0x81C784⟩, ⟨26, 0xFFE082⟩, ⟨28, 0xFFAB91⟩,
   ⟨32, 0xEF5350⟩]

/-- HUMIDITY_COLORS from the color-scales configuration. -/
def HUMIDITY_COLORS : List ColorStop :=
  [⟨30, 0xFFCC80⟩, ⟨40, 0xA5D6A7⟩, ⟨50, 0x81C784⟩, ⟨60, 0xA5D6A7⟩, ⟨70, 0x90CAF9⟩,
   ⟨85, 0x5C6BC0⟩]

/-- The last entry of the scale head :: rest, i.e. scale[scale.length - 1]. -/
def lastStop : ColorStop → List ColorStop → ColorStop
  | a, [] => a
  | _, b :: rest => lastStop b rest

/-- Linear interpolation of one color channel followed by the rounding of
THREE.Color.getHex (Math.round on the byte value). -/
def lerpChannel (a b : ℕ) (t : ℚ) : ℤ :=
  round ((a : ℚ) + ((b : ℚ) - (a : ℚ)) * t)

/-- Channelwise linear interpolation between two hex colors by factor t, as
THREE.Color.lerpColors followed by getHex computes it on rgb bytes. -/
def lerpHex (c1 c2 : ℕ) (t : ℚ) : ℕ :=
  ((lerpChannel (c1 / 65536 % 256) (c2 / 65536 % 256) t).toNat) * 65536 +
  ((lerpChannel (c1 / 256 % 256) (c2 / 256 % 256) t).toNat) * 256 +
  ((lerpChannel (c1 % 256) (c2 % 256) t).toNat)

/-- The bracket-search loop of interpolateColor: scan adjacent entry pairs
in order and take the first pair (scale[i], scale[i+1]) with
scale[i].value ≤ value ≤ scale[i+1].value. -/
def findBracket (v : ℚ) : List ColorStop → Option (ColorStop × ColorStop)
  | a :: b :: rest =>
      if a.value ≤ v ∧ v ≤ b.value then some (a, b) else findBracket v (b :: rest)
  | _ => none

/-- interpolateColor from color-utils.js: clamp to the first color at or
below the first entry, to the last color at or beyond the last entry, and
otherwise interpolate between the bracketing pair found by the scan loop
(which defaults to (first, last) when no pair matches). -/
def interpolateColor (value : ℚ) (scale : List ColorStop) : ℕ :=
  match scale with
  | [] => 0
  | head :: rest =>
    if value ≤ head.value then head.color
    else if (lastStop head rest).value ≤ value then (lastStop head rest).color
    else
      let p := (findBracket value (head :: rest)).getD (head, lastStop head rest)
      lerpHex p.1.color p.2.color ((value - p.1.value) / (p.2.value - p.1.value))

/-- A live room-data record as read by getRoomColor: current temperature and
humidity, either of which may be null. -/
structure RoomData where
  id : String
  temperature : Option ℚ
  humidity : Option ℚ
deriving DecidableEq

/-- getRoomColor from color-utils.js: neutral 0xE0E0E0 when the room object
is missing or the selected metric is null/undefined, otherwise
interpolateColor of the metric over the scale matching the view mode. -/
def getRoomColor (room : Option RoomData) (viewMode : String)
    (tempColors humidityColors : List ColorStop) : ℕ :=
  match room with
  | none => 0xE0E0E0
  | some r =>
    match (if viewMode == "temperature" then r.temperature else r.humidity) with
    | none => 0xE0E0E0
    | some v =>
        interpolateColor v (if viewMode == "temperature" then tempColors else humidityColors)

/-- A color scale has strictly ascending values. -/
def ascendingScale (scale : List ColorStop) : Prop :=
  List.Chain' (fun a b => a.value < b.value) scale

/-- In a strictly ascending scale, the first entry's value is at most the
last entry's value. -/
theorem ascending_head_le_last :
    ∀ (rest : List ColorStop) (head : ColorStop), ascendingScale (head :: rest) →
      head.value ≤ (lastStop head rest).value := by
  intro rest
  induction rest with
  | nil => intro head _; simp [lastStop]
  | cons b rest2 ih =>
    intro head hchain
    rw [ascendingScale, List.chain'_cons] at hchain
    calc head.value ≤ b.value := le_of_lt hchain.1
      _ ≤ (lastStop b rest2).value := ih b hchain.2
      _ = (lastStop head (b :: rest2)).value := by rw [lastStop]

/-- The bracket scan succeeds for every value strictly between the first and
last entry values, returning an adjacent pair of entries bracketing the
value. -/
theorem findBracket_spec (v : ℚ) :
    ∀ (rest : List ColorStop) (head : ColorStop),
      head.value < v → v < (lastStop head rest).value →
      ∃ l u, findBracket v (head :: rest) = some (l, u) ∧
        (l, u) ∈ List.zip (head :: rest) rest ∧ l.value ≤ v ∧ v ≤ u.value := by
  intro rest
  induction rest with
  | nil =>
    intro head h1 h2
    rw [lastStop] at h2
    exact absurd (h1.trans h2) (lt_irrefl _)
  | cons b rest2 ih =>
    intro head h1 h2
    by_cases hb : v ≤ b.value
    · refine ⟨head, b, ?_, ?_, le_of_lt h1, hb⟩
      · simp [findBracket, le_of_lt h1, hb]
      · simp [List.zip_cons_cons]
    · push_neg at hb
      have h2b : v < (lastStop b rest2).value := by rwa [lastStop] at h2
      obtain ⟨l, u, hfb, hmem, hl, hu⟩ := ih b hb h2b
      refine ⟨l, u, ?_, ?_, hl, hu⟩
      · have hcond : ¬(head.value ≤ v ∧ v ≤ b.value) := fun hc => absurd hc.2 (not_le.mpr hb)
        simp only [findBracket, if_neg hcond]
        exact hfb
      · rw [List.zip_cons_cons]
        exact List.mem_cons_of_mem _ hmem

/-- C10: for every color scale given as a non-empty array with ascending
values and every input value, interpolateColor returns the first entry's
color at or below the first entry's value, the last entry's color at or
beyond the last entry's value, and otherwise interpolates between the two
bracketing adjacent entries; and getRoomColor returns the neutral fallback
0xE0E0E0 whenever the room object is missing or the selected metric
(temperature for view mode "temperature", humidity otherwise) is null. -/
theorem claim_C10_color_utils (scale : List ColorStop) (head : ColorStop)
    (rest : List ColorStop) (hs : scale = head :: rest) (hasc : ascendingScale scale)
    (v : ℚ) :
    (v ≤ head.value → interpolateColor v scale = head.color) ∧
    ((lastStop head rest).value ≤ v →
      interpolateColor v scale = (lastStop head rest).color) ∧
    (head.value < v → v < (lastStop head rest).value →
      ∃ l u, (l, u) ∈ List.zip scale rest ∧ l.value ≤ v ∧ v ≤ u.value ∧
        interpolateColor v scale =
          lerpHex l.color u.color ((v - l.value) / (u.value - l.value))) ∧
    (∀ (viewMode : String) (tc hc : List ColorStop),
      getRoomColor none viewMode tc hc = 0xE0E0E0) ∧
    (∀ (r : RoomData) (tc hc : List ColorStop), r.temperature = none →
      getRoomColor (some r) "temperature" tc hc = 0xE0E0E0) ∧
    (∀ (r : RoomData) (viewMode : String) (tc hc : List ColorStop),
      viewMode ≠ "temperature" → r.humidity = none →
      getRoomColor (some r) viewMode tc hc = 0xE0E0E0) := by
  subst hs
  refine ⟨?_, ?_, ?_, ?_, ?_, ?_⟩
  · intro hle
    simp [interpolateColor, hle]
  · intro hge
    by_cases h1 : v ≤ head.value
    · cases rest with
      | nil => simp [interpolateColor, h1, lastStop]
      | cons b rest2 =>
        exfalso
        rw [ascendingScale, List.chain'_cons] at hasc
        have hbl : b.value ≤ (lastStop b rest2).value := ascending_head_le_last rest2 b hasc.2
        rw [lastStop] at hge
        exact absurd (hasc.1.trans_le (hbl.trans (hge.trans h1))) (lt_irrefl _)
    · simp [interpolateColor, h1, hge]
  · intro hlo hhi
    obtain ⟨l, u, hfb, hmem, hl, hu⟩ := findBracket_spec v rest head hlo hhi
    refine ⟨l, u, hmem, hl, hu, ?_⟩
    simp [interpolateColor, not_le.mpr hlo, not_le.mpr hhi, hfb]
  · intro viewMode tc hc
    rfl
  · intro r tc hc htemp
    simp [getRoomColor, htemp]
  · intro r viewMode tc hc hmode hhum
    simp [getRoomColor, hmode, hhum]

/-- Witness for C10: on the TEMP_COLORS scale the value 23 falls strictly
between the first entry (18) and the last entry (32), so interpolateColor
interpolates between an adjacent bracketing pair. -/
theorem claim_C10_color_utils_witness :
    ∃ l u, (l, u) ∈ List.zip TEMP_COLORS (TEMP_COLORS.tail) ∧ l.value ≤ 23 ∧
      (23 : ℚ) ≤ u.value ∧
      interpolateColor 23 TEMP_COLORS =
        lerpHex l.color u.color ((23 - l.value) / (u.value - l.value)) :=
  (claim_C10_color_utils TEMP_COLORS ⟨18, 0x90CAF9⟩ (TEMP_COLORS.tail) rfl
    (by norm_num [ascendingScale, TEMP_COLORS, List.chain'_cons]) 23).2.2.1
    (by norm_num) (by norm_num [TEMP_COLORS, lastStop])

/-! ## Renderer/scene lifecycle (waitForContainer + cleanupThreeState)

Each view keeps a persistent state bag (scene, camera, renderer,
animationId, isInitialized) outside the component instance.  waitForContainer
retries while the container has zero size; once ready, if the view is
already initialized with a live renderer it only re-attaches the canvas and
resizes, and otherwise it calls cleanupThreeState (which disposes the
renderer, clears the scene and cancels the pending animation frame) and
then builds a fresh scene/camera/renderer pair and starts a new animation
loop.  The model below identifies each renderer/scene pair created by an
initialization with a fresh numeric id and tracks which pairs have been
disposed. -/

/-- The persistent per-view state bag: the id of the current renderer/scene
pair (if any), the set of pair ids already disposed, the isInitialized flag,
and the pending animation-frame id. -/
structure ViewLifecycleState where
  nextId : ℕ
  renderer : Option ℕ
  disposed : List ℕ
  isInitialized : Bool
  animId : Option ℕ
deriving DecidableEq

/-- The state bag before the first initialization. -/
def initialViewState : ViewLifecycleState := ⟨0, none, [], false, none⟩

/-- The disposed set after cleanupThreeState: the current renderer/scene
pair, if present, is disposed (renderer.dispose() and scene.clear()). -/
def cleanupDisposed (s : ViewLifecycleState) : List ℕ :=
  match s.renderer with
  | some r => r :: s.disposed
  | none => s.disposed

/-- One invocation of waitForContainer.  A not-yet-laid-out container leaves
the state unchanged (the retry only re-schedules the poll).  An initialized
view with a live renderer only re-attaches the canvas and resizes.
Otherwise cleanupThreeState runs (disposing the previous pair and cancelling
the pending animation frame) and a fresh pair is created, the animation loop
restarted and isInitialized set. -/
def waitForContainerStep (s : ViewLifecycleState) (containerReady : Bool) : ViewLifecycleState :=
  if containerReady = false then s
  else if s.isInitialized && s.renderer.isSome then s
  else
    { nextId := s.nextId + 1
      renderer := some s.nextId
      disposed := cleanupDisposed s
      isInitialized := true
      animId := some s.nextId }

/-- The state bag after a sequence of waitForContainer invocations from the
uninitialized state, each flagged with whether the container had nonzero
size. -/
def runView (events : List Bool) : ViewLifecycleState :=
  events.foldl waitForContainerStep initialViewState

/-- The lifecycle invariant: every pair ever created is either disposed or
the current renderer, the current renderer is a created and non-disposed
pair, an initialized view has a current renderer, and disposed ids were
created. -/
def ViewInv (s : ViewLifecycleState) : Prop :=
  (∀ i, i < s.nextId → i ∈ s.disposed ∨ s.renderer = some i) ∧
  (∀ r, s.renderer = some r → r < s.nextId ∧ r ∉ s.disposed) ∧
  (s.isInitialized = true → s.renderer.isSome = true) ∧
  (∀ d ∈ s.disposed, d < s.nextId)

/-- The invariant holds in the uninitialized state. -/
theorem viewInv_initial : ViewInv initialViewState := by
  refine ⟨?_, ?_, ?_, ?_⟩ <;> simp [initialViewState]

/-- Each waitForContainer invocation preserves the lifecycle invariant. -/
theorem viewInv_step (s : ViewLifecycleState) (ready : Bool) (h : ViewInv s) :
    ViewInv (waitForContainerStep s ready) := by
  obtain ⟨h1, h2, h3, h4⟩ := h
  rw [waitForContainerStep]
  split
  · exact ⟨h1, h2, h3, h4⟩
  split
  · exact ⟨h1, h2, h3, h4⟩
  refine ⟨?_, ?_, ?_, ?_⟩
  · intro i hi
    rcases Nat.lt_succ_iff_lt_or_eq.mp hi with hlt | heq
    · rcases h1 i hlt with hd | hr
      · left
        cases hren : s.renderer <;> simp [cleanupDisposed, hren, hd]
      · left
        simp [cleanupDisposed, hr]
    · right
      simp [heq]
  · intro r hr
    simp only [Option.some.injEq] at hr
    subst hr
    refine ⟨Nat.lt_succ_self _, ?_⟩
    intro hmem
    cases hren : s.renderer with
    | none =>
      rw [cleanupDisposed, hren] at hmem
      exact absurd (h4 _ hmem) (lt_irrefl _)
    | some r0 =>
      rw [cleanupDisposed, hren] at hmem
      rcases List.mem_cons.mp hmem with heq | hmem2
      · exact absurd (heq ▸ (h2 r0 hren).1) (lt_irrefl _)
      · exact absurd (h4 _ hmem2) (lt_irrefl _)
  · intro _
    rfl
  · intro d hd
    cases hren : s.renderer with
    | none =>
      rw [cleanupDisposed, hren] at hd
      exact (h4 _ hd).trans (Nat.lt_succ_self _)
    | some r0 =>
      rw [cleanupDisposed, hren] at hd
      rcases List.mem_cons.mp hd with heq | hd2
      · exact heq ▸ ((h2 r0 hren).1.trans (Nat.lt_succ_self _))
      · exact (h4 _ hd2).trans (Nat.lt_succ_self _)

/-- The lifecycle invariant holds after any sequence of waitForContainer
invocations. -/
theorem viewInv_run (events : List Bool) : ViewInv (runView events) := by
  rw [runView]
  have : ∀ (evs : List Bool) (s : ViewLifecycleState), ViewInv s →
      ViewInv (evs.foldl waitForContainerStep s) := by
    intro evs
    induction evs with
    | nil => exact fun s h => h
    | cons e rest ih => exact fun s h => ih _ (viewInv_step s e h)
  exact this events initialViewState viewInv_initial

/-- C4: at every reachable state of a view's lifecycle at most one
non-disposed renderer/scene pair exists in the persistent state bag; once
the view is initialized, exactly one live pair exists (the current
renderer), every other pair ever created having been disposed; and the
re-initialization path first disposes the previous pair (and cancels the
pending animation frame by replacing it) before installing the fresh one. -/
theorem claim_C4_single_live_renderer (events : List Bool) :
    (∀ i j, i < (runView events).nextId → j < (runView events).nextId →
      i ∉ (runView events).disposed → j ∉ (runView events).disposed → i = j) ∧
    ((runView events).isInitialized = true →
      ∃ r, (runView events).renderer = some r ∧ r ∉ (runView events).disposed ∧
        ∀ i, i < (runView events).nextId → i ∉ (runView events).disposed → i = r) ∧
    (∀ (s : ViewLifecycleState) (r : ℕ), s.renderer = some r → s.isInitialized = false →
      r ∈ (waitForContainerStep s true).disposed ∧
      (waitForContainerStep s true).renderer = some s.nextId ∧
      (waitForContainerStep s true).animId = some s.nextId) := by
  obtain ⟨h1, h2, h3, h4⟩ := viewInv_run events
  refine ⟨?_, ?_, ?_⟩
  · intro i j hi hj hdi hdj
    rcases h1 i hi with hd | hri
    · exact absurd hd hdi
    rcases h1 j hj with hd | hrj
    · exact absurd hd hdj
    rw [hri] at hrj
    exact Option.some.inj hrj
  · intro hinit
    obtain ⟨r, hr⟩ := Option.isSome_iff_exists.mp (h3 hinit)
    refine ⟨r, hr, (h2 r hr).2, ?_⟩
    intro i hi hdi
    rcases h1 i hi with hd | hri
    · exact absurd hd hdi
    · rw [hr] at hri
      exact (Option.some.inj hri).symm
  · intro s r hr hinit
    rw [waitForContainerStep]
    simp only [hinit, hr]
    refine ⟨?_, rfl, rfl⟩
    simp [cleanupDisposed, hr]

/-- Witness for C4: after two container-ready invocations (initialize, then
re-attach) the view is initialized with pair 0 live and nothing disposed. -/
theorem claim_C4_single_live_renderer_witness :
    ∃ r, (runView [true, true]).renderer = some r ∧ r ∉ (runView [true, true]).disposed ∧
      ∀ i, i < (runView [true, true]).nextId → i ∉ (runView [true, true]).disposed → i = r :=
  (claim_C4_single_live_renderer [true, true]).2.1 (by rfl)

/-! ## Silent skipping of unresolved room ids (C5)

createDevices (network.js) looks up each device's room in the
configuration; when the lookup fails the marker mesh is still created and
added to the scene but keeps the THREE.Mesh default position (0, 0, 0) -
nothing is positioned from the record.  createFurniture (isometric.js)
returns early for an item whose room is absent, emitting no mesh for it.
updateRoomColors returns early for a room-data record with no mesh group,
applying no color.  In all three cases the remaining items are processed
unchanged and no error is raised (the functions are total). -/

/-- A furniture item from FLOOR_PLAN_CONFIG.furniture. -/
structure FurnitureItem where
  type : String
  room : String
  width : ℚ
  depth : ℚ
  height : ℚ
deriving DecidableEq

/-- The meshes createFurniture builds for one item whose room resolved: the
furniture box at the room center, plus a bedding box for beds. -/
def furnitureMeshesFor (item : FurnitureItem) (roomConfig : Room) : List Vec3 :=
  ⟨roomConfig.x - centerX, item.height / 2, roomConfig.z - centerZ⟩ ::
  (if item.type == "bed" then
    [⟨roomConfig.x - centerX, item.height + 5/100, roomConfig.z - centerZ⟩]
  else [])

/-- createFurniture from isometric.js over the furniture list: items whose
room id is absent from the configuration are skipped entirely. -/
def createFurnitureMeshes (items : List FurnitureItem) (rooms : List Room) : List Vec3 :=
  items.flatMap (fun item =>
    match findRoom rooms item.room with
    | none => []
    | some roomConfig => furnitureMeshesFor item roomConfig)

/-- A device record from ZIGBEE_DEVICES: id, type, room affiliation and
relative position within the room. -/
structure ZigbeeDevice where
  id : String
  type : String
  room : String
  x : ℚ
  z : ℚ
deriving DecidableEq

/-- createDevices from network.js: every device gets a marker mesh; its
position comes from the room lookup via deviceMarkerPos (default origin
when the room id is absent). -/
def createDeviceMeshes (devices : List ZigbeeDevice) (rooms : List Room) :
    List (String × Vec3) :=
  devices.map (fun d => (d.id, deviceMarkerPos rooms d.room d.x d.z))

/-- updateRoomColors from isometric.js: for each live room-data record with
a mesh group in the registry, set the floor color from getRoomColor; records
whose id has no mesh group are skipped. -/
def updateRoomColorsUpdates (roomsData : List RoomData) (meshIds : List String)
    (viewMode : String) (tc hc : List ColorStop) : List (String × ℕ) :=
  roomsData.filterMap (fun rd =>
    if meshIds.contains rd.id then some (rd.id, getRoomColor (some rd) viewMode tc hc)
    else none)

/-- C5: an item whose referenced room id is absent from the configuration is
silently skipped - createFurniture emits no mesh for it, createDevices
positions nothing from it (the marker keeps the default origin), and
updateRoomColors applies no color for it - while the rest of the scene is
still built completely (the remaining items produce exactly the output they
would produce without the missing-room item). -/
theorem claim_C5_missing_room_skipped
    (items : List FurnitureItem) (rooms : List Room) (item : FurnitureItem)
    (devices : List ZigbeeDevice) (d : ZigbeeDevice)
    (roomsData : List RoomData) (meshIds : List String) (viewMode : String)
    (tc hc : List ColorStop) (rd : RoomData)
    (hitem : findRoom rooms item.room = none)
    (hdev : findRoom rooms d.room = none)
    (hrd : meshIds.contains rd.id = false) :
    createFurnitureMeshes (item :: items) rooms = createFurnitureMeshes items rooms ∧
    createDeviceMeshes (d :: devices) rooms =
      (d.id, ⟨0, 0, 0⟩) :: createDeviceMeshes devices rooms ∧
    updateRoomColorsUpdates (rd :: roomsData) meshIds viewMode tc hc =
      updateRoomColorsUpdates roomsData meshIds viewMode tc hc := by
  refine ⟨?_, ?_, ?_⟩
  · simp [createFurnitureMeshes, hitem]
  · simp [createDeviceMeshes, deviceMarkerPos, hdev]
  · have hnm : rd.id ∉ meshIds := by simpa using hrd
    simp [updateRoomColorsUpdates, hnm]

/-- Witness for C5: a furniture item, a device and a room-data record all
referencing the unconfigured room id "garage" are skipped against the real
room configuration. -/
theorem claim_C5_missing_room_skipped_witness :
    createFurnitureMeshes [⟨"desk", "garage", 1, 1, 1⟩] configRooms =
      createFurnitureMeshes [] configRooms ∧
    createDeviceMeshes [⟨"sensor1", "end-device", "garage", 5/10, 5/10⟩] configRooms =
      ("sensor1", ⟨0, 0, 0⟩) :: createDeviceMeshes [] configRooms ∧
    updateRoomColorsUpdates [⟨"garage", none, none⟩]
        ["study", "living", "bedroom", "kitchen", "bathroom"] "temperature"
        TEMP_COLORS HUMIDITY_COLORS =
      updateRoomColorsUpdates []
        ["study", "living", "bedroom", "kitchen", "bathroom"] "temperature"
        TEMP_COLORS HUMIDITY_COLORS :=
  claim_C5_missing_room_skipped [] configRooms ⟨"desk", "garage", 1, 1, 1⟩
    [] ⟨"sensor1", "end-device", "garage", 5/10, 5/10⟩
    [] ["study", "living", "bedroom", "kitchen", "bathroom"] "temperature"
    TEMP_COLORS HUMIDITY_COLORS ⟨"garage", none, none⟩
    (by rfl) (by rfl) (by rfl)
